import Mathlib

/-!
# acepriority/OpenGL: `main.cpp` and `translation.cpp`

A shallow embedding of the two programs under `src/init/src/`.

Both programs are a single `main` that talks to GLFW, GLAD, OpenGL and
`std::cout`.  The embedding makes the outside world explicit:

* `Env` holds what the outside world answers: the value returned by every call
  whose result the C++ code stores or could test;
* `Call` is one observable action of the program, with its arguments;
* `main` maps an `Env` to the list of `Call`s made, in order, and the value
  returned by `main` (the process exit code).

The render loop `while (!glfwWindowShouldClose(window))` runs as long as the
outside world keeps the window open, so it is embedded with a fuel argument:
`none` means the loop was still running when the fuel ran out.

`float` literals are represented by the rational number their decimal text
denotes (`0.2f` is `1/5`).
-/

namespace OpenGL

/-! ## Data model -/

/-- A non-null `GLFWwindow*`.  `NULL` is `none : Option Window`. -/
abbrev Window := Nat

/-- The GLFW window hints used by the programs (first argument of `glfwWindowHint`). -/
inductive GLFWhint where
  | GLFW_CONTEXT_VERSION_MAJOR
  | GLFW_CONTEXT_VERSION_MINOR
  | GLFW_OPENGL_PROFILE
  deriving DecidableEq, Repr

/-- The values given to window hints (second argument of `glfwWindowHint`). -/
inductive GLFWvalue where
  | int (n : Int)
  | GLFW_OPENGL_CORE_PROFILE
  deriving DecidableEq, Repr

/-- The OpenGL enumerants used by the programs, kept symbolic. -/
inductive GLenum where
  | GL_COLOR_BUFFER_BIT
  | GL_VERTEX_SHADER
  | GL_FRAGMENT_SHADER
  | GL_ARRAY_BUFFER
  | GL_ELEMENT_ARRAY_BUFFER
  | GL_STATIC_DRAW
  | GL_FLOAT
  | GL_TRIANGLES
  | GL_UNSIGNED_INT
  deriving DecidableEq, Repr

/-- The client memory handed to `glBufferData`: an array of `GLfloat` or of `GLuint`. -/
inductive BufferData where
  | floats (data : List ℚ)
  | uints (data : List Nat)
  deriving DecidableEq

/-- One observable action of a program: a GLFW, GLAD or OpenGL call with its
arguments, or a line written to `std::cout`.  `glfwCreateWindow` also records
the pointer it returned. -/
inductive Call where
  | glfwInit
  | glfwWindowHint (hint : GLFWhint) (value : GLFWvalue)
  | glfwCreateWindow (width height : Nat) (title : String) (result : Option Window)
  | cout (msg : String)
  | glfwTerminate
  | glfwMakeContextCurrent (window : Window)
  | gladLoadGL
  | glViewport (x y : Int) (width height : Nat)
  | glfwWindowShouldClose (window : Window)
  | glClearColor (r g b a : ℚ)
  | glClear (mask : GLenum)
  | glfwSwapBuffers (window : Window)
  | glfwPollEvents
  | glfwDestroyWindow (window : Window)
  | glCreateShader (ty : GLenum)
  | glShaderSource (shader : Nat) (count : Nat) (source : String)
  | glCompileShader (shader : Nat)
  | glCreateProgram
  | glAttachShader (program shader : Nat)
  | glLinkProgram (program : Nat)
  | glDeleteShader (shader : Nat)
  | glGenVertexArrays (n : Nat)
  | glGenBuffers (n : Nat)
  | glBindVertexArray (array : Nat)
  | glBindBuffer (target : GLenum) (buffer : Nat)
  | glBufferData (target : GLenum) (size : Nat) (data : BufferData) (usage : GLenum)
  | glVertexAttribPointer (index : Nat) (size : Nat) (ty : GLenum) (normalized : Bool)
      (stride : Nat) (pointer : Nat)
  | glEnableVertexAttribArray (index : Nat)
  | glUseProgram (program : Nat)
  | glGetUniformLocation (program : Nat) (name : String)
  | glUniformMatrix4fv (location : Int) (count : Nat) (transpose : Bool) (value : List ℚ)
  | glDrawElements (mode : GLenum) (count : Nat) (ty : GLenum) (indices : Nat)
  | glDeleteVertexArrays (n : Nat) (array : Nat)
  | glDeleteBuffers (n : Nat) (buffer : Nat)
  | glDeleteProgram (program : Nat)
  deriving DecidableEq

/-- What the outside world answers.  Calls that are made several times are
indexed by how many earlier calls of the same function there were. -/
structure Env where
  /-- Return value of `glfwInit()` (`GLFW_TRUE` is `true`). -/
  glfwInit : Bool
  /-- Return value of the `k`-th `glfwCreateWindow` call. -/
  glfwCreateWindow : Nat → Option Window
  /-- Return value of `gladLoadGL()` (non-zero is `true`). -/
  gladLoadGL : Bool
  /-- Return value of the `k`-th `glfwWindowShouldClose` call. -/
  glfwWindowShouldClose : Nat → Bool
  /-- Name returned by the `k`-th `glCreateShader` call (0 on failure). -/
  glCreateShader : Nat → Nat
  /-- Whether the `k`-th `glCompileShader` call compiled its shader. -/
  glCompileShader : Nat → Bool
  /-- Name returned by `glCreateProgram()` (0 on failure). -/
  glCreateProgram : Nat
  /-- Whether `glLinkProgram` linked the program. -/
  glLinkProgram : Bool
  /-- Name stored by `glGenVertexArrays`. -/
  glGenVertexArrays : Nat
  /-- Name stored by the `k`-th `glGenBuffers` call. -/
  glGenBuffers : Nat → Nat
  /-- Return value of the `k`-th `glGetUniformLocation` call (-1 when not found). -/
  glGetUniformLocation : Nat → Int

/-- The result of a finished run of `main`. -/
structure Outcome where
  /-- The calls made, in order. -/
  trace : List Call
  /-- The value returned by `main`. -/
  exit : Int
  deriving DecidableEq

/-- `sizeof(float)` and `sizeof(GLfloat)`. -/
def sizeofFloat : Nat := 4

/-- `sizeof(GLuint)`. -/
def sizeofGLuint : Nat := 4

/-! ## The render loop -/

/-- `while (!glfwWindowShouldClose(window)) { body }`, started at poll number
`k`.  Every evaluation of the loop condition is one `glfwWindowShouldClose`
call; `body k` is the list of calls of the iteration that follows poll `k`.
The result is the list of calls up to and including the poll that ended the
loop, or `none` when `fuel` polls were not enough. -/
def renderLoop (shouldClose : Nat → Bool) (window : Window) (body : Nat → List Call) :
    Nat → Nat → Option (List Call)
  | 0, _ => none
  | fuel + 1, k =>
    if shouldClose k then some [Call.glfwWindowShouldClose window]
    else
      match renderLoop shouldClose window body fuel (k + 1) with
      | none => none
      | some rest => some (Call.glfwWindowShouldClose window :: (body k ++ rest))

/-! ## `main.cpp` -/

namespace MainCpp

/-- Lines 7-15 of `main.cpp`: everything up to the test of `window`. -/
def start (env : Env) : List Call :=
  [ Call.glfwInit,
    Call.glfwWindowHint GLFWhint.GLFW_CONTEXT_VERSION_MAJOR (GLFWvalue.int 3),
    Call.glfwWindowHint GLFWhint.GLFW_CONTEXT_VERSION_MINOR (GLFWvalue.int 3),
    Call.glfwWindowHint GLFWhint.GLFW_OPENGL_PROFILE GLFWvalue.GLFW_OPENGL_CORE_PROFILE,
    Call.glfwCreateWindow 800 800 "ZMMR" (env.glfwCreateWindow 0),
    Call.glfwCreateWindow 800 600 "ZMMR" (env.glfwCreateWindow 1) ]

/-- Lines 21-24 of `main.cpp`: from the window test to the loop. -/
def context (window : Window) : List Call :=
  [ Call.glfwMakeContextCurrent window,
    Call.gladLoadGL,
    Call.glViewport 0 0 800 600 ]

/-- Lines 28-31 of `main.cpp`: the body of the render loop. -/
def frame (window : Window) : List Call :=
  [ Call.glClearColor (7 / 100) (13 / 100) (17 / 100) 1,
    Call.glClear GLenum.GL_COLOR_BUFFER_BIT,
    Call.glfwSwapBuffers window,
    Call.glfwPollEvents ]

/-- Lines 34-35 of `main.cpp`: after the loop. -/
def cleanup (window : Window) : List Call :=
  [ Call.glfwDestroyWindow window,
    Call.glfwTerminate ]

/-- The function `main` of `main.cpp`.  The results of `glfwInit()`, of the
first `glfwCreateWindow` and of `gladLoadGL()` are not tested by the code; the
variable `window` holds the result of the second `glfwCreateWindow`. -/
def main (env : Env) (fuel : Nat) : Option Outcome :=
  match env.glfwCreateWindow 1 with
  | none => some ⟨start env ++ [Call.cout "Failed to open GLFW window"], -1⟩
  | some window =>
    match renderLoop env.glfwWindowShouldClose window (fun _ => frame window) fuel 0 with
    | none => none
    | some loop => some ⟨start env ++ context window ++ loop ++ cleanup window, 0⟩

end MainCpp

/-! ## The parts of GLM and GLSL used by `translation.cpp` -/

/-- The type `glm::vec3` (GLSL `vec3`). -/
structure Vec3 where
  x : ℚ
  y : ℚ
  z : ℚ
  deriving DecidableEq

/-- The type `glm::vec4` (GLSL `vec4`). -/
structure Vec4 where
  x : ℚ
  y : ℚ
  z : ℚ
  w : ℚ
  deriving DecidableEq

/-- The type `glm::mat4` (GLSL `mat4`): four columns, `m[i]` is column `i`. -/
structure Mat4 where
  c0 : Vec4
  c1 : Vec4
  c2 : Vec4
  c3 : Vec4
  deriving DecidableEq

/-- Componentwise sum of two `vec4`. -/
def Vec4.add (a b : Vec4) : Vec4 :=
  ⟨a.x + b.x, a.y + b.y, a.z + b.z, a.w + b.w⟩

/-- Product of a `vec4` with a scalar. -/
def Vec4.scale (a : Vec4) (s : ℚ) : Vec4 :=
  ⟨a.x * s, a.y * s, a.z * s, a.w * s⟩

/-- The constructor `glm::mat4(s)`: `s` on the diagonal, zero elsewhere. -/
def mat4 (s : ℚ) : Mat4 :=
  ⟨⟨s, 0, 0, 0⟩, ⟨0, s, 0, 0⟩, ⟨0, 0, s, 0⟩, ⟨0, 0, 0, s⟩⟩

/-- The function `glm::translate(m, v)`: a copy of `m` whose last column is
`m[0] * v[0] + m[1] * v[1] + m[2] * v[2] + m[3]`. -/
def translate (m : Mat4) (v : Vec3) : Mat4 :=
  ⟨m.c0, m.c1, m.c2,
   (((m.c0.scale v.x).add (m.c1.scale v.y)).add (m.c2.scale v.z)).add m.c3⟩

/-- The function `glm::value_ptr(m)`: the sixteen floats of `m` as they lie in
memory, column after column. -/
def value_ptr (m : Mat4) : List ℚ :=
  [ m.c0.x, m.c0.y, m.c0.z, m.c0.w,
    m.c1.x, m.c1.y, m.c1.z, m.c1.w,
    m.c2.x, m.c2.y, m.c2.z, m.c2.w,
    m.c3.x, m.c3.y, m.c3.z, m.c3.w ]

/-- The value of a three-float vertex attribute for vertex `i`, read from a
buffer of floats with the given byte stride and byte offset
(`glVertexAttribPointer(_, 3, GL_FLOAT, _, stride, pointer)`). -/
def fetchVec3 (buffer : List ℚ) (stride pointer : Nat) (i : Nat) : Vec3 :=
  let base := (pointer + i * stride) / sizeofFloat
  ⟨buffer.getD base 0, buffer.getD (base + 1) 0, buffer.getD (base + 2) 0⟩

/-! ## `translation.cpp` -/

namespace TranslationCpp

/-- The string `vertexShaderSource` (lines 10-18). -/
def vertexShaderSource : String :=
  "\n    #version 330 core\n    layout (location = 0) in vec3 aPos;\n    uniform mat4 model;\n    void main()\n    \x7b\n        gl_Position = model * vec4(aPos, 1.0);\n    \x7d\n"

/-- The string `fragmentShaderSource` (lines 20-27). -/
def fragmentShaderSource : String :=
  "\n    #version 330 core\n    out vec4 FragColor;\n    void main()\n    \x7b\n        FragColor = vec4(1.0f, 0.5f, 0.2f, 1.0f);\n    \x7d\n"

/-- The array `vertices` (lines 87-92). -/
def vertices : List ℚ :=
  [ -(1 / 2), -(1 / 2), 0,
    1 / 2, -(1 / 2), 0,
    1 / 2, 1 / 2, 0,
    -(1 / 2), 1 / 2, 0 ]

/-- The array `indices` (lines 95-98). -/
def indices : List Nat :=
  [ 0, 1, 2,
    0, 2, 3 ]

/-- The matrix `model` built in the loop body (lines 135-136). -/
def model : Mat4 :=
  translate (mat4 1) ⟨1 / 5, 3 / 10, 0⟩

/-- Lines 32-44 of `translation.cpp` when `glfwInit()` succeeded: up to the
test of `window`. -/
def start (env : Env) : List Call :=
  [ Call.glfwInit,
    Call.glfwWindowHint GLFWhint.GLFW_CONTEXT_VERSION_MAJOR (GLFWvalue.int 3),
    Call.glfwWindowHint GLFWhint.GLFW_CONTEXT_VERSION_MINOR (GLFWvalue.int 3),
    Call.glfwWindowHint GLFWhint.GLFW_OPENGL_PROFILE GLFWvalue.GLFW_OPENGL_CORE_PROFILE,
    Call.glfwCreateWindow 800 800 "2D Square with Translation" (env.glfwCreateWindow 0) ]

/-- Lines 64-122 of `translation.cpp`: viewport, shaders, program and buffers.
`vertexShader`, `fragmentShader`, `shaderProgram`, `VAO`, `VBO` and `EBO` hold
what the outside world returned. -/
def setup (env : Env) : List Call :=
  let vertexShader := env.glCreateShader 0
  let fragmentShader := env.glCreateShader 1
  let shaderProgram := env.glCreateProgram
  let VAO := env.glGenVertexArrays
  let VBO := env.glGenBuffers 0
  let EBO := env.glGenBuffers 1
  [ Call.glViewport 0 0 800 600,
    Call.glCreateShader GLenum.GL_VERTEX_SHADER,
    Call.glShaderSource vertexShader 1 vertexShaderSource,
    Call.glCompileShader vertexShader,
    Call.glCreateShader GLenum.GL_FRAGMENT_SHADER,
    Call.glShaderSource fragmentShader 1 fragmentShaderSource,
    Call.glCompileShader fragmentShader,
    Call.glCreateProgram,
    Call.glAttachShader shaderProgram vertexShader,
    Call.glAttachShader shaderProgram fragmentShader,
    Call.glLinkProgram shaderProgram,
    Call.glDeleteShader vertexShader,
    Call.glDeleteShader fragmentShader,
    Call.glGenVertexArrays 1,
    Call.glGenBuffers 1,
    Call.glGenBuffers 1,
    Call.glBindVertexArray VAO,
    Call.glBindBuffer GLenum.GL_ARRAY_BUFFER VBO,
    Call.glBufferData GLenum.GL_ARRAY_BUFFER (vertices.length * sizeofFloat)
      (BufferData.floats vertices) GLenum.GL_STATIC_DRAW,
    Call.glBindBuffer GLenum.GL_ELEMENT_ARRAY_BUFFER EBO,
    Call.glBufferData GLenum.GL_ELEMENT_ARRAY_BUFFER (indices.length * sizeofGLuint)
      (BufferData.uints indices) GLenum.GL_STATIC_DRAW,
    Call.glVertexAttribPointer 0 3 GLenum.GL_FLOAT false (3 * sizeofFloat) 0,
    Call.glEnableVertexAttribArray 0,
    Call.glBindVertexArray 0 ]

/-- Lines 128-147 of `translation.cpp`: the body of the render loop in
iteration `k` (counted from 0). -/
def frame (env : Env) (window : Window) (k : Nat) : List Call :=
  let shaderProgram := env.glCreateProgram
  let VAO := env.glGenVertexArrays
  [ Call.glClearColor (7 / 100) (13 / 100) (17 / 100) 1,
    Call.glClear GLenum.GL_COLOR_BUFFER_BIT,
    Call.glUseProgram shaderProgram,
    Call.glGetUniformLocation shaderProgram "model",
    Call.glUniformMatrix4fv (env.glGetUniformLocation k) 1 false (value_ptr model),
    Call.glBindVertexArray VAO,
    Call.glDrawElements GLenum.GL_TRIANGLES 6 GLenum.GL_UNSIGNED_INT 0,
    Call.glfwSwapBuffers window,
    Call.glfwPollEvents ]

/-- Lines 151-158 of `translation.cpp`: after the loop. -/
def cleanup (env : Env) (window : Window) : List Call :=
  [ Call.glDeleteVertexArrays 1 env.glGenVertexArrays,
    Call.glDeleteBuffers 1 (env.glGenBuffers 0),
    Call.glDeleteBuffers 1 (env.glGenBuffers 1),
    Call.glDeleteProgram env.glCreateProgram,
    Call.glfwDestroyWindow window,
    Call.glfwTerminate ]

/-- The function `main` of `translation.cpp`. -/
def main (env : Env) (fuel : Nat) : Option Outcome :=
  if !env.glfwInit then
    some ⟨[Call.glfwInit, Call.cout "Failed to initialize GLFW"], -1⟩
  else
    match env.glfwCreateWindow 0 with
    | none =>
      some ⟨start env ++ [Call.cout "Failed to create GLFW window", Call.glfwTerminate], -1⟩
    | some window =>
      if !env.gladLoadGL then
        some ⟨start env ++ [Call.glfwMakeContextCurrent window, Call.gladLoadGL,
          Call.cout "Failed to initialize GLAD", Call.glfwTerminate], -1⟩
      else
        match renderLoop env.glfwWindowShouldClose window (frame env window) fuel 0 with
        | none => none
        | some loop =>
          some ⟨start env ++ [Call.glfwMakeContextCurrent window, Call.gladLoadGL]
            ++ setup env ++ loop ++ cleanup env window, 0⟩

end TranslationCpp

/-! ## Reading a trace -/

/-- The calls of `n` complete passes through the loop, the first one following
poll number `k`: each pass is one `glfwWindowShouldClose` call that answered
`false`, then the body. -/
def iterations (window : Window) (body : Nat → List Call) : Nat → Nat → List Call
  | _, 0 => []
  | k, n + 1 =>
    Call.glfwWindowShouldClose window :: (body k ++ iterations window body (k + 1) n)

/-- The window stays open for the first `n` polls and is closed at the next one. -/
def ClosesAt (env : Env) (n : Nat) : Prop :=
  (∀ k, k < n → env.glfwWindowShouldClose k = false) ∧ env.glfwWindowShouldClose n = true

/-- The name of the function called (`cout` for a line written to `std::cout`). -/
def Call.name : Call → String
  | Call.glfwInit => "glfwInit"
  | Call.glfwWindowHint _ _ => "glfwWindowHint"
  | Call.glfwCreateWindow _ _ _ _ => "glfwCreateWindow"
  | Call.cout _ => "cout"
  | Call.glfwTerminate => "glfwTerminate"
  | Call.glfwMakeContextCurrent _ => "glfwMakeContextCurrent"
  | Call.gladLoadGL => "gladLoadGL"
  | Call.glViewport _ _ _ _ => "glViewport"
  | Call.glfwWindowShouldClose _ => "glfwWindowShouldClose"
  | Call.glClearColor _ _ _ _ => "glClearColor"
  | Call.glClear _ => "glClear"
  | Call.glfwSwapBuffers _ => "glfwSwapBuffers"
  | Call.glfwPollEvents => "glfwPollEvents"
  | Call.glfwDestroyWindow _ => "glfwDestroyWindow"
  | Call.glCreateShader _ => "glCreateShader"
  | Call.glShaderSource _ _ _ => "glShaderSource"
  | Call.glCompileShader _ => "glCompileShader"
  | Call.glCreateProgram => "glCreateProgram"
  | Call.glAttachShader _ _ => "glAttachShader"
  | Call.glLinkProgram _ => "glLinkProgram"
  | Call.glDeleteShader _ => "glDeleteShader"
  | Call.glGenVertexArrays _ => "glGenVertexArrays"
  | Call.glGenBuffers _ => "glGenBuffers"
  | Call.glBindVertexArray _ => "glBindVertexArray"
  | Call.glBindBuffer _ _ => "glBindBuffer"
  | Call.glBufferData _ _ _ _ => "glBufferData"
  | Call.glVertexAttribPointer _ _ _ _ _ _ => "glVertexAttribPointer"
  | Call.glEnableVertexAttribArray _ => "glEnableVertexAttribArray"
  | Call.glUseProgram _ => "glUseProgram"
  | Call.glGetUniformLocation _ _ => "glGetUniformLocation"
  | Call.glUniformMatrix4fv _ _ _ _ => "glUniformMatrix4fv"
  | Call.glDrawElements _ _ _ _ => "glDrawElements"
  | Call.glDeleteVertexArrays _ _ => "glDeleteVertexArrays"
  | Call.glDeleteBuffers _ _ => "glDeleteBuffers"
  | Call.glDeleteProgram _ => "glDeleteProgram"

/-- A line written to `std::cout`. -/
def Call.isCout : Call → Bool
  | Call.cout _ => true
  | _ => false

/-- An evaluation of the loop condition. -/
def Call.isShouldClose : Call → Bool
  | Call.glfwWindowShouldClose _ => true
  | _ => false

/-- A `glfwSwapBuffers` call. -/
def Call.isSwapBuffers : Call → Bool
  | Call.glfwSwapBuffers _ => true
  | _ => false

/-- A `glfwPollEvents` call. -/
def Call.isPollEvents : Call → Bool
  | Call.glfwPollEvents => true
  | _ => false

/-- A `glfwTerminate` call. -/
def Call.isTerminate : Call → Bool
  | Call.glfwTerminate => true
  | _ => false

/-- A `glfwDestroyWindow` call on the given window. -/
def Call.isDestroyOf (window : Window) : Call → Bool
  | Call.glfwDestroyWindow w => w == window
  | _ => false

/-- A call that needs a window's context or the GL (`glfwMakeContextCurrent`,
`gladLoadGL`, every `gl...` function) or belongs to the render loop
(`glfwWindowShouldClose`, `glfwSwapBuffers`, `glfwPollEvents`). -/
def Call.isContextGLOrLoop : Call → Bool
  | Call.glfwInit => false
  | Call.glfwWindowHint _ _ => false
  | Call.glfwCreateWindow _ _ _ _ => false
  | Call.cout _ => false
  | Call.glfwTerminate => false
  | Call.glfwDestroyWindow _ => false
  | _ => true

/-- A call that belongs to the one-time setup: initialisation, window and
context creation, `glViewport`, shader compilation and linking, buffer
generation and upload, attribute setup. -/
def Call.isSetup : Call → Bool
  | Call.glfwInit => true
  | Call.glfwWindowHint _ _ => true
  | Call.glfwCreateWindow _ _ _ _ => true
  | Call.glfwMakeContextCurrent _ => true
  | Call.gladLoadGL => true
  | Call.glViewport _ _ _ _ => true
  | Call.glCreateShader _ => true
  | Call.glShaderSource _ _ _ => true
  | Call.glCompileShader _ => true
  | Call.glCreateProgram => true
  | Call.glAttachShader _ _ => true
  | Call.glLinkProgram _ => true
  | Call.glDeleteShader _ => true
  | Call.glGenVertexArrays _ => true
  | Call.glGenBuffers _ => true
  | Call.glBindBuffer _ _ => true
  | Call.glBufferData _ _ _ _ => true
  | Call.glVertexAttribPointer _ _ _ _ _ _ => true
  | Call.glEnableVertexAttribArray _ => true
  | _ => false

/-! ## The mesh of `translation.cpp` as the draw call reads it -/

namespace TranslationCpp

/-- The position of vertex `i`, fetched from `vertices` with the layout given
to `glVertexAttribPointer` (line 118): three floats, stride `3 * sizeof(float)`,
offset 0. -/
def vertex (i : Nat) : Vec3 :=
  fetchVec3 vertices (3 * sizeofFloat) 0 i

/-- The three vertex numbers of triangle `t`, as `glDrawElements(GL_TRIANGLES, ...)`
reads them from `indices`: entries `3t`, `3t + 1`, `3t + 2`. -/
def triangle (t : Nat) : List Nat :=
  [indices.getD (3 * t) 0, indices.getD (3 * t + 1) 0, indices.getD (3 * t + 2) 0]

end TranslationCpp

/-! ## Plane geometry used to state the shape of the mesh -/

/-- Twice the signed area of the triangle `a b c` in the `xy` plane; positive
when `a b c` runs counter-clockwise. -/
def signedArea2 (a b c : Vec3) : ℚ :=
  (b.x - a.x) * (c.y - a.y) - (c.x - a.x) * (b.y - a.y)

/-- The area of the triangle `a b c` in the `xy` plane. -/
def triangleArea (a b c : Vec3) : ℚ :=
  |signedArea2 a b c| / 2

/-- The point `(px, py)` lies on the left of, or on, the directed line from `a` to `b`. -/
def leftOf (a b : Vec3) (px py : ℚ) : Prop :=
  0 ≤ (b.x - a.x) * (py - a.y) - (b.y - a.y) * (px - a.x)

/-- The point `(px, py)` lies in the closed counter-clockwise triangle `a b c`. -/
def inTriangle (a b c : Vec3) (px py : ℚ) : Prop :=
  leftOf a b px py ∧ leftOf b c px py ∧ leftOf c a px py

/-- The point `(px, py)` lies in the closed axis-aligned square of side 1
centred at the origin. -/
def inUnitSquare (px py : ℚ) : Prop :=
  -(1 / 2) ≤ px ∧ px ≤ 1 / 2 ∧ -(1 / 2) ≤ py ∧ py ≤ 1 / 2

/-! ## Concrete outside worlds -/

/-- A poll sequence that answers `false` to polls `0 .. n - 1` and `true` from poll `n` on. -/
def closeAtPoll (n : Nat) : Nat → Bool :=
  fun k => decide (n ≤ k)

/-- An outside world in which `glfwInit()` returns `init`, the first
`glfwCreateWindow` returns `w0` and the later ones `w1`, `gladLoadGL()` returns
`glad`, the window is closed at poll `n`, and every other call succeeds. -/
def world (init : Bool) (w0 w1 : Option Window) (glad : Bool) (n : Nat) : Env :=
  Env.mk
    init
    (fun k => if k = 0 then w0 else w1)
    glad
    (closeAtPoll n)
    (fun k => k + 1)
    (fun _ => true)
    3
    true
    1
    (fun k => k + 1)
    (fun _ => 0)

/-- The calls of `n` consecutive loop bodies, the first one being `body k`,
without the evaluations of the loop condition between them. -/
def blocks (body : Nat → List Call) : Nat → Nat → List Call
  | _, 0 => []
  | k, n + 1 => body k ++ blocks body (k + 1) n

/-! ## The render loop: lemmas -/

theorem renderLoop_of_closes (sc : Nat → Bool) (w : Window) (body : Nat → List Call) :
    ∀ (n fuel k : Nat), (∀ j, j < n → sc (k + j) = false) → sc (k + n) = true → n < fuel →
      renderLoop sc w body fuel k
        = some (iterations w body k n ++ [Call.glfwWindowShouldClose w]) := by
  intro n
  induction n with
  | zero =>
    intro fuel k _ hc hf
    obtain ⟨f, rfl⟩ : ∃ f, fuel = f + 1 := ⟨fuel - 1, by omega⟩
    simp only [Nat.add_zero] at hc
    simp [renderLoop, iterations, hc]
  | succ n ih =>
    intro fuel k ho hc hf
    obtain ⟨f, rfl⟩ : ∃ f, fuel = f + 1 := ⟨fuel - 1, by omega⟩
    have h0 : sc k = false := by simpa using ho 0 (Nat.succ_pos n)
    have hrec := ih f (k + 1)
      (fun j hj => by
        have := ho (j + 1) (by omega)
        rwa [show k + 1 + j = k + (j + 1) by omega])
      (by rwa [show k + 1 + n = k + (n + 1) by omega])
      (by omega)
    simp [renderLoop, iterations, h0, hrec]

theorem renderLoop_some (sc : Nat → Bool) (w : Window) (body : Nat → List Call) :
    ∀ (fuel k : Nat) (t : List Call), renderLoop sc w body fuel k = some t →
      ∃ n, n < fuel ∧ (∀ j, j < n → sc (k + j) = false) ∧ sc (k + n) = true ∧
        t = iterations w body k n ++ [Call.glfwWindowShouldClose w] := by
  intro fuel
  induction fuel with
  | zero => intro k t h; simp [renderLoop] at h
  | succ f ih =>
    intro k t h
    by_cases hk : sc k = true
    · refine ⟨0, Nat.succ_pos f, fun j hj => absurd hj (Nat.not_lt_zero j), by simpa using hk, ?_⟩
      simp [renderLoop, hk] at h
      simp [iterations, h]
    · have hk0 : sc k = false := by simpa using hk
      cases hr : renderLoop sc w body f (k + 1) with
      | none => simp [renderLoop, hk0, hr] at h
      | some rest =>
        simp [renderLoop, hk0, hr] at h
        obtain ⟨n, hn, ho, hc, ht⟩ := ih (k + 1) rest hr
        refine ⟨n + 1, by omega, ?_, by rwa [show k + (n + 1) = k + 1 + n by omega], ?_⟩
        · intro j hj
          cases j with
          | zero => simpa using hk0
          | succ j =>
            have := ho j (by omega)
            rwa [show k + (j + 1) = k + 1 + j by omega]
        · simp [iterations, ← h, ht]

theorem length_iterations (w : Window) (body : Nat → List Call) (c : Nat)
    (hbody : ∀ k, (body k).length = c) :
    ∀ (n k : Nat), (iterations w body k n).length = n * (c + 1) := by
  intro n
  induction n with
  | zero => intro k; simp [iterations]
  | succ n ih =>
    intro k
    simp [iterations, ih, hbody]
    ring

theorem countP_iterations (p : Call → Bool) (w : Window) (body : Nat → List Call) (c : Nat)
    (hbody : ∀ k, (body k).countP p = c) :
    ∀ (n k : Nat), (iterations w body k n).countP p
      = n * (c + if p (Call.glfwWindowShouldClose w) then 1 else 0) := by
  intro n
  induction n with
  | zero => intro k; simp [iterations]
  | succ n ih =>
    intro k
    rw [iterations, List.countP_cons, List.countP_append, ih, hbody]
    ring

theorem filter_iterations_nil (p : Call → Bool) (w : Window) (body : Nat → List Call)
    (hguard : p (Call.glfwWindowShouldClose w) = false)
    (hbody : ∀ k, (body k).filter p = []) :
    ∀ (n k : Nat), (iterations w body k n).filter p = [] := by
  intro n
  induction n with
  | zero => intro k; simp [iterations]
  | succ n ih =>
    intro k
    rw [iterations, List.filter_cons, hguard, List.filter_append, hbody, ih]
    simp

theorem closesAt_world (init : Bool) (w0 w1 : Option Window) (glad : Bool) (n : Nat) :
    ClosesAt (world init w0 w1 glad n) n := by
  constructor
  · intro k hk
    simp [world, closeAtPoll]
    omega
  · simp [world, closeAtPoll]

namespace MainCpp

theorem main_cpp_window_null (env : Env) (fuel : Nat) (h : env.glfwCreateWindow 1 = none) :
    main env fuel = some ⟨start env ++ [Call.cout "Failed to open GLFW window"], -1⟩ := by
  simp [main, h]

theorem main_cpp_loop (env : Env) (n fuel : Nat) (w : Window)
    (hw : env.glfwCreateWindow 1 = some w) (hclose : ClosesAt env n) (hfuel : n < fuel) :
    main env fuel = some ⟨start env ++ context w
      ++ (iterations w (fun _ => frame w) 0 n ++ [Call.glfwWindowShouldClose w])
      ++ cleanup w, 0⟩ := by
  have hl := renderLoop_of_closes env.glfwWindowShouldClose w (fun _ => frame w) n fuel 0
    (fun j hj => by simpa using hclose.1 j hj) (by simpa using hclose.2) hfuel
  simp only [main, hw, hl]

/-- In `main.cpp` the window whose context is made current is the one created
by `glfwCreateWindow(800, 600, ...)`, and the viewport is 800 by 600. -/
theorem viewport_is_window_size (env : Env) (n fuel : Nat) (w : Window)
    (hw : env.glfwCreateWindow 1 = some w) (hclose : ClosesAt env n) (hfuel : n < fuel) :
    ∃ trace, main env fuel = some ⟨trace, 0⟩ ∧
      (start env).getLast? = some (Call.glfwCreateWindow 800 600 "ZMMR" (some w)) ∧
      trace.filter (fun c => c.name == "glfwMakeContextCurrent")
        = [Call.glfwMakeContextCurrent w] ∧
      trace.filter (fun c => c.name == "glViewport") = [Call.glViewport 0 0 800 600] := by
  refine ⟨_, main_cpp_loop env n fuel w hw hclose hfuel, by simp [start, hw], ?_, ?_⟩
  · simp only [List.filter_append]
    rw [filter_iterations_nil _ w _ rfl (fun _ => by simp [frame, Call.name, List.filter])]
    simp [start, context, cleanup, Call.name, List.filter]
  · simp only [List.filter_append]
    rw [filter_iterations_nil _ w _ rfl (fun _ => by simp [frame, Call.name, List.filter])]
    simp [start, context, cleanup, Call.name, List.filter]

end MainCpp

namespace TranslationCpp

theorem main_init_fails (env : Env) (fuel : Nat) (h : env.glfwInit = false) :
    main env fuel = some ⟨[Call.glfwInit, Call.cout "Failed to initialize GLFW"], -1⟩ := by
  simp [main, h]

theorem main_window_null (env : Env) (fuel : Nat) (hi : env.glfwInit = true)
    (h : env.glfwCreateWindow 0 = none) :
    main env fuel = some ⟨start env
      ++ [Call.cout "Failed to create GLFW window", Call.glfwTerminate], -1⟩ := by
  simp [main, hi, h]

theorem main_glad_fails (env : Env) (fuel : Nat) (w : Window) (hi : env.glfwInit = true)
    (hw : env.glfwCreateWindow 0 = some w) (hg : env.gladLoadGL = false) :
    main env fuel = some ⟨start env ++ [Call.glfwMakeContextCurrent w, Call.gladLoadGL,
      Call.cout "Failed to initialize GLAD", Call.glfwTerminate], -1⟩ := by
  simp [main, hi, hw, hg]

theorem main_loop (env : Env) (n fuel : Nat) (w : Window) (hi : env.glfwInit = true)
    (hw : env.glfwCreateWindow 0 = some w) (hg : env.gladLoadGL = true)
    (hclose : ClosesAt env n) (hfuel : n < fuel) :
    main env fuel = some ⟨start env ++ [Call.glfwMakeContextCurrent w, Call.gladLoadGL]
      ++ setup env
      ++ (iterations w (frame env w) 0 n ++ [Call.glfwWindowShouldClose w])
      ++ cleanup env w, 0⟩ := by
  have hl := renderLoop_of_closes env.glfwWindowShouldClose w (frame env w) n fuel 0
    (fun j hj => by simpa using hclose.1 j hj) (by simpa using hclose.2) hfuel
  simp only [main, hi, hw, hg, hl]
  simp

end TranslationCpp

theorem filter_iterations (w : Window) (body : Nat → List Call)
    (hbody : ∀ k c, c ∈ body k → c.isShouldClose = false) :
    ∀ (n k : Nat), (iterations w body k n).filter (fun c => !c.isShouldClose)
      = blocks body k n := by
  intro n
  induction n with
  | zero => intro k; simp [iterations, blocks]
  | succ n ih =>
    intro k
    have hb : (body k).filter (fun c => !c.isShouldClose) = body k := by
      rw [List.filter_eq_self]
      intro c hc
      simp [hbody k c hc]
    have hg : (!(Call.glfwWindowShouldClose w).isShouldClose) = false := rfl
    rw [iterations, blocks, List.filter_cons, hg, List.filter_append, hb, ih]
    simp

/-! ## The claims -/

/-- C2: in both programs, when the `glfwCreateWindow` call whose result is
tested returns `NULL`, `main` writes one line to `std::cout` and returns -1,
and nothing that follows the `glfwCreateWindow` call is a context, GL or
render-loop call (`main.cpp` makes no further call at all, `translation.cpp`
only calls `glfwTerminate`). -/
theorem C2_null_window_prints_and_returns_minus_one (env : Env) (fuel : Nat) :
    (env.glfwCreateWindow 1 = none →
      (MainCpp.start env).getLast? = some (Call.glfwCreateWindow 800 600 "ZMMR" none) ∧
      MainCpp.main env fuel
        = some ⟨MainCpp.start env ++ [Call.cout "Failed to open GLFW window"], -1⟩ ∧
      [Call.cout "Failed to open GLFW window"].all (fun c => !c.isContextGLOrLoop) = true)
    ∧ (env.glfwInit = true → env.glfwCreateWindow 0 = none →
      (TranslationCpp.start env).getLast?
        = some (Call.glfwCreateWindow 800 800 "2D Square with Translation" none) ∧
      TranslationCpp.main env fuel
        = some ⟨TranslationCpp.start env
            ++ [Call.cout "Failed to create GLFW window", Call.glfwTerminate], -1⟩ ∧
      [Call.cout "Failed to create GLFW window", Call.glfwTerminate].all
        (fun c => !c.isContextGLOrLoop) = true) := by
  refine ⟨fun h => ⟨?_, MainCpp.main_cpp_window_null env fuel h, ?_⟩,
    fun hi h => ⟨?_, TranslationCpp.main_window_null env fuel hi h, ?_⟩⟩
  · simp [MainCpp.start, h]
  · simp [Call.isContextGLOrLoop]
  · simp [TranslationCpp.start, h]
  · simp [Call.isContextGLOrLoop]

/-- Witness for C2: a world in which `glfwInit()` succeeds and every
`glfwCreateWindow` returns `NULL`. -/
theorem C2_null_window_witness :
    MainCpp.main (world true none none true 0) 5
      = some ⟨MainCpp.start (world true none none true 0)
          ++ [Call.cout "Failed to open GLFW window"], -1⟩
    ∧ TranslationCpp.main (world true none none true 0) 5
      = some ⟨TranslationCpp.start (world true none none true 0)
          ++ [Call.cout "Failed to create GLFW window", Call.glfwTerminate], -1⟩ :=
  ⟨((C2_null_window_prints_and_returns_minus_one (world true none none true 0) 5).1 rfl).2.1,
   ((C2_null_window_prints_and_returns_minus_one (world true none none true 0) 5).2 rfl rfl).2.1⟩

/-- C3: in both programs, when `glfwInit`, every `glfwCreateWindow` and
`gladLoadGL` succeed and `glfwWindowShouldClose` answers `false` to the first
`n` polls and `true` to poll `n + 1`, then `main` returns 0 (for every fuel
above `n`) after exactly `n` passes through the loop body: the loop condition
is evaluated `n + 1` times, `glfwSwapBuffers` and `glfwPollEvents` are called
`n` times each. -/
theorem C3_loop_runs_n_times_then_returns_zero (env : Env) (n fuel : Nat) (w0 w1 : Window)
    (hinit : env.glfwInit = true) (hw0 : env.glfwCreateWindow 0 = some w0)
    (hglad : env.gladLoadGL = true) (hclose : ClosesAt env n) (hfuel : n < fuel) :
    (env.glfwCreateWindow 1 = some w1 →
      ∃ trace, MainCpp.main env fuel = some ⟨trace, 0⟩ ∧
        trace.countP Call.isShouldClose = n + 1 ∧
        trace.countP Call.isSwapBuffers = n ∧
        trace.countP Call.isPollEvents = n)
    ∧ (∃ trace, TranslationCpp.main env fuel = some ⟨trace, 0⟩ ∧
        trace.countP Call.isShouldClose = n + 1 ∧
        trace.countP Call.isSwapBuffers = n ∧
        trace.countP Call.isPollEvents = n) := by
  constructor
  · intro hw1
    refine ⟨_, MainCpp.main_cpp_loop env n fuel w1 hw1 hclose hfuel, ?_, ?_, ?_⟩
    · simp only [List.countP_append]
      rw [countP_iterations Call.isShouldClose w1 _ 0 (fun _ => by simp [MainCpp.frame, Call.isShouldClose])]
      simp [MainCpp.start, MainCpp.context, MainCpp.cleanup, Call.isShouldClose]
    · simp only [List.countP_append]
      rw [countP_iterations Call.isSwapBuffers w1 _ 1 (fun _ => by simp [MainCpp.frame, Call.isSwapBuffers])]
      simp [MainCpp.start, MainCpp.context, MainCpp.cleanup, Call.isSwapBuffers]
    · simp only [List.countP_append]
      rw [countP_iterations Call.isPollEvents w1 _ 1 (fun _ => by simp [MainCpp.frame, Call.isPollEvents])]
      simp [MainCpp.start, MainCpp.context, MainCpp.cleanup, Call.isPollEvents]
  · refine ⟨_, TranslationCpp.main_loop env n fuel w0 hinit hw0 hglad hclose hfuel, ?_, ?_, ?_⟩
    · simp only [List.countP_append]
      rw [countP_iterations Call.isShouldClose w0 _ 0 (fun _ => by simp [TranslationCpp.frame, Call.isShouldClose])]
      simp [TranslationCpp.start, TranslationCpp.setup, TranslationCpp.cleanup, Call.isShouldClose]
    · simp only [List.countP_append]
      rw [countP_iterations Call.isSwapBuffers w0 _ 1 (fun _ => by simp [TranslationCpp.frame, Call.isSwapBuffers])]
      simp [TranslationCpp.start, TranslationCpp.setup, TranslationCpp.cleanup, Call.isSwapBuffers]
    · simp only [List.countP_append]
      rw [countP_iterations Call.isPollEvents w0 _ 1 (fun _ => by simp [TranslationCpp.frame, Call.isPollEvents])]
      simp [TranslationCpp.start, TranslationCpp.setup, TranslationCpp.cleanup, Call.isPollEvents]

/-- Witness for C3: two frames, then the window is closed. -/
theorem C3_loop_runs_n_times_witness :
    (∃ trace, MainCpp.main (world true (some 1) (some 2) true 2) 3 = some ⟨trace, 0⟩ ∧
        trace.countP Call.isShouldClose = 2 + 1 ∧
        trace.countP Call.isSwapBuffers = 2 ∧
        trace.countP Call.isPollEvents = 2)
    ∧ (∃ trace, TranslationCpp.main (world true (some 1) (some 2) true 2) 3 = some ⟨trace, 0⟩ ∧
        trace.countP Call.isShouldClose = 2 + 1 ∧
        trace.countP Call.isSwapBuffers = 2 ∧
        trace.countP Call.isPollEvents = 2) :=
  ⟨(C3_loop_runs_n_times_then_returns_zero (world true (some 1) (some 2) true 2) 2 3 1 2
      rfl rfl rfl (closesAt_world true (some 1) (some 2) true 2) (by decide)).1 rfl,
   (C3_loop_runs_n_times_then_returns_zero (world true (some 1) (some 2) true 2) 2 3 1 2
      rfl rfl rfl (closesAt_world true (some 1) (some 2) true 2) (by decide)).2⟩

theorem blocks_const (block : List Call) :
    ∀ (n k : Nat), blocks (fun _ => block) k n = (List.replicate n block).flatten := by
  intro n
  induction n with
  | zero => intro k; simp [blocks]
  | succ n ih => intro k; simp [blocks, ih, List.replicate_succ]

theorem blocks_same (body : Nat → List Call) (block : List Call) (h : ∀ k, body k = block) :
    ∀ (n k : Nat), blocks body k n = (List.replicate n block).flatten := by
  have hb : body = fun _ => block := funext h
  subst hb
  exact blocks_const block

theorem renderLoop_names (sc : Nat → Bool) (w : Window) (body body1 : Nat → List Call)
    (hbody : ∀ k, (body k).map Call.name = (body1 k).map Call.name) :
    ∀ (fuel k : Nat), (renderLoop sc w body fuel k).map (List.map Call.name)
      = (renderLoop sc w body1 fuel k).map (List.map Call.name) := by
  intro fuel
  induction fuel with
  | zero => intro k; simp [renderLoop]
  | succ f ih =>
    intro k
    have h := ih (k + 1)
    by_cases hk : sc k = true
    · simp [renderLoop, hk]
    · have hk0 : sc k = false := by simpa using hk
      cases h1 : renderLoop sc w body f (k + 1) with
      | none =>
        cases h2 : renderLoop sc w body1 f (k + 1) with
        | none => simp [renderLoop, hk0, h1, h2]
        | some r2 => simp [h1, h2] at h
      | some r1 =>
        cases h2 : renderLoop sc w body1 f (k + 1) with
        | none => simp [h1, h2] at h
        | some r2 =>
          simp [h1, h2] at h
          simp [renderLoop, hk0, h1, h2, h, hbody k, Call.name]

theorem iterations_const (w : Window) (block : List Call) :
    ∀ (n k : Nat), iterations w (fun _ => block) k n
      = (List.replicate n (Call.glfwWindowShouldClose w :: block)).flatten := by
  intro n
  induction n with
  | zero => intro k; simp [iterations]
  | succ n ih => intro k; simp [iterations, ih, List.replicate_succ]

theorem iterations_eq_range (w : Window) (body : Nat → List Call) :
    ∀ (n k : Nat), iterations w body k n
      = ((List.range n).map (fun j => Call.glfwWindowShouldClose w :: body (k + j))).flatten := by
  intro n
  induction n with
  | zero => intro k; simp [iterations]
  | succ n ih =>
    intro k
    rw [iterations, ih (k + 1), List.range_succ_eq_map, List.map_cons, List.flatten_cons,
      List.map_map]
    have hfun : ((fun j => Call.glfwWindowShouldClose w :: body (k + j)) ∘ Nat.succ)
        = fun j => Call.glfwWindowShouldClose w :: body (k + 1 + j) := by
      funext j
      simp [Function.comp, Nat.add_assoc, Nat.add_comm 1 j]
    rw [hfun]
    simp

theorem blocks_eq_range (body : Nat → List Call) :
    ∀ (n k : Nat), blocks body k n = ((List.range n).map (fun j => body (k + j))).flatten := by
  intro n
  induction n with
  | zero => intro k; simp [blocks]
  | succ n ih =>
    intro k
    rw [blocks, ih (k + 1), List.range_succ_eq_map, List.map_cons, List.flatten_cons,
      List.map_map]
    have hfun : ((fun j => body (k + j)) ∘ Nat.succ) = fun j => body (k + 1 + j) := by
      funext j
      simp [Function.comp, Nat.add_assoc, Nat.add_comm 1 j]
    rw [hfun]
    simp

theorem map_name_iterations (w : Window) (body : Nat → List Call) (names : List String)
    (hbody : ∀ k, (body k).map Call.name = names) :
    ∀ (n k : Nat), (iterations w body k n).map Call.name
      = (List.replicate n ("glfwWindowShouldClose" :: names)).flatten := by
  intro n
  induction n with
  | zero => intro k; simp [iterations]
  | succ n ih =>
    intro k
    simp [iterations, ih, hbody, List.replicate_succ, Call.name]

/-- C8: for every run of `n` frames, the calls made by each program are, by
value: the setup calls once (written out below: 9 calls in `main.cpp`, 31 in
`translation.cpp`), then `n` times the evaluation of the loop condition
followed by the per-frame block, one last evaluation of the loop condition,
then the cleanup calls once (2 calls in `main.cpp`, 6 in `translation.cpp`).
Leaving the loop-condition calls out, the trace is setup, `n` blocks, cleanup.
The functions called are, in order, the setup names, `n` repetitions of one
fixed list (`glfwWindowShouldClose`, `glClearColor`, `glClear`, in
`translation.cpp` `glUseProgram`, `glGetUniformLocation`, `glUniformMatrix4fv`,
`glBindVertexArray`, `glDrawElements`, then `glfwSwapBuffers`,
`glfwPollEvents`), and the cleanup names.  The number of setup calls in the
whole trace is that of the setup section (9, resp. 29), whatever `n` is, and no
call of a block is a setup call.  In `translation.cpp` the blocks are equal by
value when `glGetUniformLocation` returns the same location in every frame. -/
theorem C8_setup_then_n_frames_then_cleanup (env : Env) (n fuel : Nat) (w : Window)
    (hclose : ClosesAt env n) (hfuel : n < fuel) :
    (env.glfwCreateWindow 1 = some w →
      ∃ (trace setupCalls frameCalls cleanupCalls : List Call),
        MainCpp.main env fuel = some ⟨trace, 0⟩ ∧
        setupCalls =
          [ Call.glfwInit,
            Call.glfwWindowHint GLFWhint.GLFW_CONTEXT_VERSION_MAJOR (GLFWvalue.int 3),
            Call.glfwWindowHint GLFWhint.GLFW_CONTEXT_VERSION_MINOR (GLFWvalue.int 3),
            Call.glfwWindowHint GLFWhint.GLFW_OPENGL_PROFILE
              GLFWvalue.GLFW_OPENGL_CORE_PROFILE,
            Call.glfwCreateWindow 800 800 "ZMMR" (env.glfwCreateWindow 0),
            Call.glfwCreateWindow 800 600 "ZMMR" (some w),
            Call.glfwMakeContextCurrent w,
            Call.gladLoadGL,
            Call.glViewport 0 0 800 600 ] ∧
        frameCalls =
          [ Call.glClearColor (7 / 100) (13 / 100) (17 / 100) 1,
            Call.glClear GLenum.GL_COLOR_BUFFER_BIT,
            Call.glfwSwapBuffers w,
            Call.glfwPollEvents ] ∧
        cleanupCalls = [ Call.glfwDestroyWindow w, Call.glfwTerminate ] ∧
        trace = setupCalls
          ++ (List.replicate n (Call.glfwWindowShouldClose w :: frameCalls)).flatten
          ++ [Call.glfwWindowShouldClose w]
          ++ cleanupCalls ∧
        trace.filter (fun c => !c.isShouldClose)
          = setupCalls ++ (List.replicate n frameCalls).flatten ++ cleanupCalls ∧
        trace.map Call.name
          = [ "glfwInit", "glfwWindowHint", "glfwWindowHint", "glfwWindowHint",
              "glfwCreateWindow", "glfwCreateWindow", "glfwMakeContextCurrent",
              "gladLoadGL", "glViewport" ]
            ++ (List.replicate n
                [ "glfwWindowShouldClose", "glClearColor", "glClear", "glfwSwapBuffers",
                  "glfwPollEvents" ]).flatten
            ++ [ "glfwWindowShouldClose", "glfwDestroyWindow", "glfwTerminate" ] ∧
        trace.countP Call.isSetup = 9 ∧
        setupCalls.all Call.isSetup = true ∧
        frameCalls.all (fun c => !c.isSetup) = true ∧
        cleanupCalls.all (fun c => !c.isSetup) = true)
    ∧ (env.glfwInit = true → env.glfwCreateWindow 0 = some w → env.gladLoadGL = true →
      ∃ (trace setupCalls : List Call) (frameCalls : Nat → List Call)
          (cleanupCalls : List Call),
        TranslationCpp.main env fuel = some ⟨trace, 0⟩ ∧
        setupCalls =
          [ Call.glfwInit,
            Call.glfwWindowHint GLFWhint.GLFW_CONTEXT_VERSION_MAJOR (GLFWvalue.int 3),
            Call.glfwWindowHint GLFWhint.GLFW_CONTEXT_VERSION_MINOR (GLFWvalue.int 3),
            Call.glfwWindowHint GLFWhint.GLFW_OPENGL_PROFILE
              GLFWvalue.GLFW_OPENGL_CORE_PROFILE,
            Call.glfwCreateWindow 800 800 "2D Square with Translation" (some w),
            Call.glfwMakeContextCurrent w,
            Call.gladLoadGL,
            Call.glViewport 0 0 800 600,
            Call.glCreateShader GLenum.GL_VERTEX_SHADER,
            Call.glShaderSource (env.glCreateShader 0) 1 TranslationCpp.vertexShaderSource,
            Call.glCompileShader (env.glCreateShader 0),
            Call.glCreateShader GLenum.GL_FRAGMENT_SHADER,
            Call.glShaderSource (env.glCreateShader 1) 1 TranslationCpp.fragmentShaderSource,
            Call.glCompileShader (env.glCreateShader 1),
            Call.glCreateProgram,
            Call.glAttachShader env.glCreateProgram (env.glCreateShader 0),
            Call.glAttachShader env.glCreateProgram (env.glCreateShader 1),
            Call.glLinkProgram env.glCreateProgram,
            Call.glDeleteShader (env.glCreateShader 0),
            Call.glDeleteShader (env.glCreateShader 1),
            Call.glGenVertexArrays 1,
            Call.glGenBuffers 1,
            Call.glGenBuffers 1,
            Call.glBindVertexArray env.glGenVertexArrays,
            Call.glBindBuffer GLenum.GL_ARRAY_BUFFER (env.glGenBuffers 0),
            Call.glBufferData GLenum.GL_ARRAY_BUFFER 48
              (BufferData.floats TranslationCpp.vertices) GLenum.GL_STATIC_DRAW,
            Call.glBindBuffer GLenum.GL_ELEMENT_ARRAY_BUFFER (env.glGenBuffers 1),
            Call.glBufferData GLenum.GL_ELEMENT_ARRAY_BUFFER 24
              (BufferData.uints TranslationCpp.indices) GLenum.GL_STATIC_DRAW,
            Call.glVertexAttribPointer 0 3 GLenum.GL_FLOAT false 12 0,
            Call.glEnableVertexAttribArray 0,
            Call.glBindVertexArray 0 ] ∧
        frameCalls = (fun k =>
          [ Call.glClearColor (7 / 100) (13 / 100) (17 / 100) 1,
            Call.glClear GLenum.GL_COLOR_BUFFER_BIT,
            Call.glUseProgram env.glCreateProgram,
            Call.glGetUniformLocation env.glCreateProgram "model",
            Call.glUniformMatrix4fv (env.glGetUniformLocation k) 1 false
              (value_ptr TranslationCpp.model),
            Call.glBindVertexArray env.glGenVertexArrays,
            Call.glDrawElements GLenum.GL_TRIANGLES 6 GLenum.GL_UNSIGNED_INT 0,
            Call.glfwSwapBuffers w,
            Call.glfwPollEvents ]) ∧
        cleanupCalls =
          [ Call.glDeleteVertexArrays 1 env.glGenVertexArrays,
            Call.glDeleteBuffers 1 (env.glGenBuffers 0),
            Call.glDeleteBuffers 1 (env.glGenBuffers 1),
            Call.glDeleteProgram env.glCreateProgram,
            Call.glfwDestroyWindow w,
            Call.glfwTerminate ] ∧
        trace = setupCalls
          ++ ((List.range n).map
                (fun k => Call.glfwWindowShouldClose w :: frameCalls k)).flatten
          ++ [Call.glfwWindowShouldClose w]
          ++ cleanupCalls ∧
        trace.filter (fun c => !c.isShouldClose)
          = setupCalls ++ ((List.range n).map frameCalls).flatten ++ cleanupCalls ∧
        trace.map Call.name
          = [ "glfwInit", "glfwWindowHint", "glfwWindowHint", "glfwWindowHint",
              "glfwCreateWindow", "glfwMakeContextCurrent", "gladLoadGL", "glViewport",
              "glCreateShader", "glShaderSource", "glCompileShader",
              "glCreateShader", "glShaderSource", "glCompileShader",
              "glCreateProgram", "glAttachShader", "glAttachShader", "glLinkProgram",
              "glDeleteShader", "glDeleteShader",
              "glGenVertexArrays", "glGenBuffers", "glGenBuffers",
              "glBindVertexArray", "glBindBuffer", "glBufferData",
              "glBindBuffer", "glBufferData",
              "glVertexAttribPointer", "glEnableVertexAttribArray", "glBindVertexArray" ]
            ++ (List.replicate n
                [ "glfwWindowShouldClose", "glClearColor", "glClear", "glUseProgram",
                  "glGetUniformLocation", "glUniformMatrix4fv", "glBindVertexArray",
                  "glDrawElements", "glfwSwapBuffers", "glfwPollEvents" ]).flatten
            ++ [ "glfwWindowShouldClose", "glDeleteVertexArrays", "glDeleteBuffers",
                 "glDeleteBuffers", "glDeleteProgram", "glfwDestroyWindow",
                 "glfwTerminate" ] ∧
        trace.countP Call.isSetup = 29 ∧
        setupCalls.countP Call.isSetup = 29 ∧
        (∀ k, (frameCalls k).all (fun c => !c.isSetup) = true) ∧
        cleanupCalls.all (fun c => !c.isSetup) = true ∧
        ((∀ k, env.glGetUniformLocation k = env.glGetUniformLocation 0) →
          ((List.range n).map frameCalls).flatten
            = (List.replicate n (frameCalls 0)).flatten)) := by
  constructor
  · intro hw
    have hm := MainCpp.main_cpp_loop env n fuel w hw hclose hfuel
    have hs : MainCpp.start env ++ MainCpp.context w =
        [ Call.glfwInit,
          Call.glfwWindowHint GLFWhint.GLFW_CONTEXT_VERSION_MAJOR (GLFWvalue.int 3),
          Call.glfwWindowHint GLFWhint.GLFW_CONTEXT_VERSION_MINOR (GLFWvalue.int 3),
          Call.glfwWindowHint GLFWhint.GLFW_OPENGL_PROFILE
            GLFWvalue.GLFW_OPENGL_CORE_PROFILE,
          Call.glfwCreateWindow 800 800 "ZMMR" (env.glfwCreateWindow 0),
          Call.glfwCreateWindow 800 600 "ZMMR" (some w),
          Call.glfwMakeContextCurrent w,
          Call.gladLoadGL,
          Call.glViewport 0 0 800 600 ] := by
      simp [MainCpp.start, MainCpp.context, hw]
    have hit := iterations_const w (MainCpp.frame w) n 0
    have hfr : ∀ c ∈ MainCpp.frame w, c.isShouldClose = false := by
      intro c hc
      simp [MainCpp.frame] at hc
      rcases hc with rfl | rfl | rfl | rfl <;> rfl
    rw [hs, hit] at hm
    refine ⟨_, _, _, _, hm, rfl, rfl, rfl, ?_, ?_, ?_, ?_, ?_, ?_, ?_⟩
    · simp [MainCpp.frame, MainCpp.cleanup]
    · rw [← hit]
      simp only [List.filter_append]
      rw [filter_iterations w _ (fun _ c hc => hfr c hc), blocks_const]
      simp [MainCpp.frame, MainCpp.cleanup, Call.isShouldClose]
    · rw [← hit]
      simp only [List.map_append]
      rw [map_name_iterations w _ _ (fun _ => rfl)]
      simp [MainCpp.frame, MainCpp.cleanup, Call.name]
    · rw [← hit]
      simp only [List.countP_append]
      rw [countP_iterations Call.isSetup w _ 0 (fun _ => by simp [MainCpp.frame, Call.isSetup])]
      simp [MainCpp.cleanup, Call.isSetup]
    · simp [Call.isSetup]
    · simp [Call.isSetup]
    · simp [Call.isSetup]
  · intro hi hw hg
    have hm := TranslationCpp.main_loop env n fuel w hi hw hg hclose hfuel
    have hs : TranslationCpp.start env ++ [Call.glfwMakeContextCurrent w, Call.gladLoadGL]
          ++ TranslationCpp.setup env =
        [ Call.glfwInit,
          Call.glfwWindowHint GLFWhint.GLFW_CONTEXT_VERSION_MAJOR (GLFWvalue.int 3),
          Call.glfwWindowHint GLFWhint.GLFW_CONTEXT_VERSION_MINOR (GLFWvalue.int 3),
          Call.glfwWindowHint GLFWhint.GLFW_OPENGL_PROFILE
            GLFWvalue.GLFW_OPENGL_CORE_PROFILE,
          Call.glfwCreateWindow 800 800 "2D Square with Translation" (some w),
          Call.glfwMakeContextCurrent w,
          Call.gladLoadGL,
          Call.glViewport 0 0 800 600,
          Call.glCreateShader GLenum.GL_VERTEX_SHADER,
          Call.glShaderSource (env.glCreateShader 0) 1 TranslationCpp.vertexShaderSource,
          Call.glCompileShader (env.glCreateShader 0),
          Call.glCreateShader GLenum.GL_FRAGMENT_SHADER,
          Call.glShaderSource (env.glCreateShader 1) 1 TranslationCpp.fragmentShaderSource,
          Call.glCompileShader (env.glCreateShader 1),
          Call.glCreateProgram,
          Call.glAttachShader env.glCreateProgram (env.glCreateShader 0),
          Call.glAttachShader env.glCreateProgram (env.glCreateShader 1),
          Call.glLinkProgram env.glCreateProgram,
          Call.glDeleteShader (env.glCreateShader 0),
          Call.glDeleteShader (env.glCreateShader 1),
          Call.glGenVertexArrays 1,
          Call.glGenBuffers 1,
          Call.glGenBuffers 1,
          Call.glBindVertexArray env.glGenVertexArrays,
          Call.glBindBuffer GLenum.GL_ARRAY_BUFFER (env.glGenBuffers 0),
          Call.glBufferData GLenum.GL_ARRAY_BUFFER 48
            (BufferData.floats TranslationCpp.vertices) GLenum.GL_STATIC_DRAW,
          Call.glBindBuffer GLenum.GL_ELEMENT_ARRAY_BUFFER (env.glGenBuffers 1),
          Call.glBufferData GLenum.GL_ELEMENT_ARRAY_BUFFER 24
            (BufferData.uints TranslationCpp.indices) GLenum.GL_STATIC_DRAW,
          Call.glVertexAttribPointer 0 3 GLenum.GL_FLOAT false 12 0,
          Call.glEnableVertexAttribArray 0,
          Call.glBindVertexArray 0 ] := by
      rw [TranslationCpp.start, hw]
      rfl
    have hit := iterations_eq_range w (TranslationCpp.frame env w) n 0
    have hfr : ∀ k, ∀ c ∈ TranslationCpp.frame env w k, c.isShouldClose = false := by
      intro k c hc
      simp [TranslationCpp.frame] at hc
      rcases hc with rfl | rfl | rfl | rfl | rfl | rfl | rfl | rfl | rfl <;> rfl
    have hframe : (fun k => TranslationCpp.frame env w k) = (fun k =>
        [ Call.glClearColor (7 / 100) (13 / 100) (17 / 100) 1,
          Call.glClear GLenum.GL_COLOR_BUFFER_BIT,
          Call.glUseProgram env.glCreateProgram,
          Call.glGetUniformLocation env.glCreateProgram "model",
          Call.glUniformMatrix4fv (env.glGetUniformLocation k) 1 false
            (value_ptr TranslationCpp.model),
          Call.glBindVertexArray env.glGenVertexArrays,
          Call.glDrawElements GLenum.GL_TRIANGLES 6 GLenum.GL_UNSIGNED_INT 0,
          Call.glfwSwapBuffers w,
          Call.glfwPollEvents ]) := rfl
    simp only [Nat.zero_add] at hit
    rw [hs, hit] at hm
    refine ⟨_, _, TranslationCpp.frame env w, _, hm, rfl, hframe, rfl,
      ?_, ?_, ?_, ?_, ?_, ?_, ?_, ?_⟩
    · rfl
    · rw [← hit]
      simp only [List.filter_append]
      rw [filter_iterations w _ hfr, blocks_eq_range]
      simp [Call.isShouldClose, TranslationCpp.cleanup]
    · rw [← hit]
      simp only [List.map_append]
      rw [map_name_iterations w (TranslationCpp.frame env w)
        ((TranslationCpp.frame env w 0).map Call.name) (fun _ => rfl)]
      simp [Call.name, TranslationCpp.frame, TranslationCpp.cleanup]
    · rw [← hit]
      simp only [List.countP_append]
      rw [countP_iterations Call.isSetup w _ 0
        (fun _ => by simp [TranslationCpp.frame, Call.isSetup])]
      simp [Call.isSetup, TranslationCpp.cleanup]
    · simp [Call.isSetup]
    · intro k
      simp [TranslationCpp.frame, Call.isSetup]
    · simp [Call.isSetup, TranslationCpp.cleanup]
    · intro hloc
      have hsame : ∀ k, TranslationCpp.frame env w k = TranslationCpp.frame env w 0 := by
        intro k
        simp [TranslationCpp.frame, hloc k]
      have hb := blocks_eq_range (TranslationCpp.frame env w) n 0
      simp only [Nat.zero_add] at hb
      rw [← hb]
      exact blocks_same _ _ hsame n 0

/-- Witness for C8: two frames, then the window is closed. -/
theorem C8_setup_then_n_frames_witness :
    (∃ trace, MainCpp.main (world true (some 1) (some 2) true 2) 3 = some ⟨trace, 0⟩ ∧
        trace.map Call.name
          = [ "glfwInit", "glfwWindowHint", "glfwWindowHint", "glfwWindowHint",
              "glfwCreateWindow", "glfwCreateWindow", "glfwMakeContextCurrent",
              "gladLoadGL", "glViewport" ]
            ++ (List.replicate 2
                [ "glfwWindowShouldClose", "glClearColor", "glClear", "glfwSwapBuffers",
                  "glfwPollEvents" ]).flatten
            ++ [ "glfwWindowShouldClose", "glfwDestroyWindow", "glfwTerminate" ] ∧
        trace.countP Call.isSetup = 9)
    ∧ (∃ trace, TranslationCpp.main (world true (some 1) (some 2) true 2) 3 = some ⟨trace, 0⟩ ∧
        trace.map Call.name
          = [ "glfwInit", "glfwWindowHint", "glfwWindowHint", "glfwWindowHint",
              "glfwCreateWindow", "glfwMakeContextCurrent", "gladLoadGL", "glViewport",
              "glCreateShader", "glShaderSource", "glCompileShader",
              "glCreateShader", "glShaderSource", "glCompileShader",
              "glCreateProgram", "glAttachShader", "glAttachShader", "glLinkProgram",
              "glDeleteShader", "glDeleteShader",
              "glGenVertexArrays", "glGenBuffers", "glGenBuffers",
              "glBindVertexArray", "glBindBuffer", "glBufferData",
              "glBindBuffer", "glBufferData",
              "glVertexAttribPointer", "glEnableVertexAttribArray", "glBindVertexArray" ]
            ++ (List.replicate 2
                [ "glfwWindowShouldClose", "glClearColor", "glClear", "glUseProgram",
                  "glGetUniformLocation", "glUniformMatrix4fv", "glBindVertexArray",
                  "glDrawElements", "glfwSwapBuffers", "glfwPollEvents" ]).flatten
            ++ [ "glfwWindowShouldClose", "glDeleteVertexArrays", "glDeleteBuffers",
                 "glDeleteBuffers", "glDeleteProgram", "glfwDestroyWindow",
                 "glfwTerminate" ] ∧
        trace.countP Call.isSetup = 29) :=
  ⟨by
    obtain ⟨t, _, _, _, h1, _, _, _, _, _, hn, hc, _⟩ := (C8_setup_then_n_frames_then_cleanup
      (world true (some 1) (some 2) true 2) 2 3 2
      (closesAt_world true (some 1) (some 2) true 2) (by decide)).1 rfl
    exact ⟨t, h1, hn, hc⟩,
   by
    obtain ⟨t, _, _, _, h1, _, _, _, _, _, hn, hc, _⟩ := (C8_setup_then_n_frames_then_cleanup
      (world true (some 1) (some 2) true 2) 2 3 1
      (closesAt_world true (some 1) (some 2) true 2) (by decide)).2 rfl rfl rfl
    exact ⟨t, h1, hn, hc⟩⟩

namespace TranslationCpp

theorem frame_names (env env1 : Env) (w : Window) (k : Nat) :
    (frame env w k).map Call.name = (frame env1 w k).map Call.name := rfl

theorem main_exit_of_ok (env : Env) (fuel : Nat) (w : Window) (r : Outcome)
    (hi : env.glfwInit = true) (hw : env.glfwCreateWindow 0 = some w)
    (hg : env.gladLoadGL = true) (h : main env fuel = some r) :
    r.exit = 0 ∧ r.trace.countP Call.isCout = 0 := by
  cases hl : renderLoop env.glfwWindowShouldClose w (frame env w) fuel 0 with
  | none => simp [main, hi, hw, hg, hl] at h
  | some loop =>
    obtain ⟨n, hn, ho, hc, rfl⟩ := renderLoop_some _ _ _ _ _ _ hl
    have hm := main_loop env n fuel w hi hw hg
      ⟨fun k hk => by simpa using ho k hk, by simpa using hc⟩ hn
    rw [hm] at h
    cases h
    refine ⟨rfl, ?_⟩
    simp only [List.countP_append]
    rw [countP_iterations Call.isCout w _ 0 (fun _ => by simp [frame, Call.isCout])]
    simp [start, setup, cleanup, Call.isCout]

end TranslationCpp

/-- C4: in `translation.cpp`, (1) when `glfwInit`, `glfwCreateWindow` or
`gladLoadGL` fails, `main` returns -1 and exactly one line was written to
`std::cout`; (2) when all three succeed and the window is closed at poll
`n + 1`, `main` returns 0 after `n` frames and nothing was written; (3) every
finished run has exit code -1 exactly when one of the three steps failed and 0
exactly when none did; (4) two outside worlds that agree on the three
initialisation results and on the `glfwWindowShouldClose` answers, and differ
in anything else (shader compilation, linking, object names, uniform
locations), give runs that finish or not alike, with the same exit code and the
same sequence of called functions. -/
theorem C4_exit_code_decided_by_initialisation_only (env : Env) (fuel : Nat) :
    ((env.glfwInit = false ∨ env.glfwCreateWindow 0 = none ∨ env.gladLoadGL = false) →
      ∃ trace, TranslationCpp.main env fuel = some ⟨trace, -1⟩ ∧
        trace.countP Call.isCout = 1)
    ∧ (env.glfwInit = true → (env.glfwCreateWindow 0).isSome = true → env.gladLoadGL = true →
      ∀ n, ClosesAt env n → n < fuel →
        ∃ trace, TranslationCpp.main env fuel = some ⟨trace, 0⟩ ∧
          trace.countP Call.isCout = 0 ∧ trace.countP Call.isPollEvents = n)
    ∧ (∀ r, TranslationCpp.main env fuel = some r →
        (r.exit = -1 ↔
          (env.glfwInit = false ∨ env.glfwCreateWindow 0 = none ∨ env.gladLoadGL = false)) ∧
        (r.exit = 0 ↔
          ¬ (env.glfwInit = false ∨ env.glfwCreateWindow 0 = none ∨ env.gladLoadGL = false)))
    ∧ (∀ env1 : Env, env1.glfwInit = env.glfwInit →
        env1.glfwCreateWindow 0 = env.glfwCreateWindow 0 →
        env1.gladLoadGL = env.gladLoadGL →
        env1.glfwWindowShouldClose = env.glfwWindowShouldClose →
        (TranslationCpp.main env1 fuel).map (fun r => (r.exit, r.trace.map Call.name))
          = (TranslationCpp.main env fuel).map (fun r => (r.exit, r.trace.map Call.name))) := by
  refine ⟨?_, ?_, ?_, ?_⟩
  · intro hfail
    cases hi : env.glfwInit with
    | false =>
      exact ⟨_, TranslationCpp.main_init_fails env fuel hi, by simp [Call.isCout]⟩
    | true =>
      cases hw : env.glfwCreateWindow 0 with
      | none =>
        exact ⟨_, TranslationCpp.main_window_null env fuel hi hw,
          by simp [TranslationCpp.start, Call.isCout]⟩
      | some w =>
        have hg : env.gladLoadGL = false := by
          rcases hfail with h | h | h
          · simp [hi] at h
          · simp [hw] at h
          · exact h
        exact ⟨_, TranslationCpp.main_glad_fails env fuel w hi hw hg,
          by simp [TranslationCpp.start, Call.isCout]⟩
  · intro hi hw hg n hclose hfuel
    obtain ⟨w, hw⟩ := Option.isSome_iff_exists.mp hw
    have hm := TranslationCpp.main_loop env n fuel w hi hw hg hclose hfuel
    refine ⟨_, hm, (TranslationCpp.main_exit_of_ok env fuel w _ hi hw hg hm).2, ?_⟩
    simp only [List.countP_append]
    rw [countP_iterations Call.isPollEvents w _ 1
      (fun _ => by simp [TranslationCpp.frame, Call.isPollEvents])]
    simp [TranslationCpp.start, TranslationCpp.setup, TranslationCpp.cleanup,
      Call.isPollEvents]
  · intro r hr
    cases hi : env.glfwInit with
    | false =>
      rw [TranslationCpp.main_init_fails env fuel hi] at hr
      cases hr
      simp
    | true =>
      cases hw : env.glfwCreateWindow 0 with
      | none =>
        rw [TranslationCpp.main_window_null env fuel hi hw] at hr
        cases hr
        simp
      | some w =>
        cases hg : env.gladLoadGL with
        | false =>
          rw [TranslationCpp.main_glad_fails env fuel w hi hw hg] at hr
          cases hr
          simp
        | true =>
          have h0 := (TranslationCpp.main_exit_of_ok env fuel w r hi hw hg hr).1
          simp [h0]
  · intro env1 hi1 hw1 hg1 hsc1
    cases hi : env.glfwInit with
    | false =>
      rw [TranslationCpp.main_init_fails env fuel hi,
        TranslationCpp.main_init_fails env1 fuel (hi1.trans hi)]
    | true =>
      cases hw : env.glfwCreateWindow 0 with
      | none =>
        rw [TranslationCpp.main_window_null env fuel hi hw,
          TranslationCpp.main_window_null env1 fuel (hi1.trans hi) (hw1.trans hw)]
        rfl
      | some w =>
        cases hg : env.gladLoadGL with
        | false =>
          rw [TranslationCpp.main_glad_fails env fuel w hi hw hg,
            TranslationCpp.main_glad_fails env1 fuel w (hi1.trans hi) (hw1.trans hw)
              (hg1.trans hg)]
          rfl
        | true =>
          have hn := renderLoop_names env.glfwWindowShouldClose w
            (TranslationCpp.frame env1 w) (TranslationCpp.frame env w)
            (fun k => TranslationCpp.frame_names env1 env w k) fuel 0
          cases h1 : renderLoop env.glfwWindowShouldClose w (TranslationCpp.frame env1 w) fuel 0 with
          | none =>
            cases h2 : renderLoop env.glfwWindowShouldClose w (TranslationCpp.frame env w) fuel 0 with
            | none =>
              simp [TranslationCpp.main, hi, hw, hg, hi1, hw1, hg1, hsc1, h1, h2]
            | some r2 => simp [h1, h2] at hn
          | some r1 =>
            cases h2 : renderLoop env.glfwWindowShouldClose w (TranslationCpp.frame env w) fuel 0 with
            | none => simp [h1, h2] at hn
            | some r2 =>
              simp [h1, h2] at hn
              simp [TranslationCpp.main, hi, hw, hg, hi1, hw1, hg1, hsc1, h1, h2, hn]
              rfl

namespace TranslationCpp

/-- In `translation.cpp`, every run that finishes after `glfwInit()` succeeded
ends with the one and only `glfwTerminate` call, and on the normal exit the
window was passed to `glfwDestroyWindow` exactly once. -/
theorem terminate_once (env : Env) (fuel : Nat) (r : Outcome) (hi : env.glfwInit = true)
    (hr : main env fuel = some r) :
    r.trace.getLast? = some Call.glfwTerminate ∧ r.trace.countP Call.isTerminate = 1 ∧
      (r.exit = 0 → ∀ w, env.glfwCreateWindow 0 = some w →
        r.trace.countP (Call.isDestroyOf w) = 1) := by
  cases hw : env.glfwCreateWindow 0 with
  | none =>
    rw [main_window_null env fuel hi hw] at hr
    cases hr
    simp [start, Call.isTerminate]
  | some w =>
    cases hg : env.gladLoadGL with
    | false =>
      rw [main_glad_fails env fuel w hi hw hg] at hr
      cases hr
      simp [start, Call.isTerminate]
    | true =>
      cases hl : renderLoop env.glfwWindowShouldClose w (frame env w) fuel 0 with
      | none => simp [main, hi, hw, hg, hl] at hr
      | some loop =>
        obtain ⟨n, hn, ho, hc, rfl⟩ := renderLoop_some _ _ _ _ _ _ hl
        have hm := main_loop env n fuel w hi hw hg
          ⟨fun k hk => by simpa using ho k hk, by simpa using hc⟩ hn
        rw [hm] at hr
        cases hr
        have hlast : ∀ pre : List Call,
            (pre ++ cleanup env w).getLast? = some Call.glfwTerminate := by
          intro pre
          have hsplit : cleanup env w
              = (cleanup env w).dropLast ++ [Call.glfwTerminate] := rfl
          rw [hsplit, ← List.append_assoc, List.getLast?_concat]
        refine ⟨hlast _, ?_, ?_⟩
        · simp only [List.countP_append]
          rw [countP_iterations Call.isTerminate w _ 0
            (fun _ => by simp [frame, Call.isTerminate])]
          simp [start, setup, cleanup, Call.isTerminate]
        · intro _ v hv
          cases hv
          simp only [List.countP_append]
          rw [countP_iterations (Call.isDestroyOf w) w _ 0
            (fun _ => by simp [frame, Call.isDestroyOf])]
          simp [start, setup, cleanup, Call.isDestroyOf]

end TranslationCpp

/-- Witness for C4: a run whose `gladLoadGL` fails, and a run of two frames. -/
theorem C4_exit_code_witness :
    (∃ trace, TranslationCpp.main (world true (some 1) none false 0) 1 = some ⟨trace, -1⟩ ∧
        trace.countP Call.isCout = 1)
    ∧ (∃ trace, TranslationCpp.main (world true (some 1) none true 2) 3 = some ⟨trace, 0⟩ ∧
        trace.countP Call.isCout = 0 ∧ trace.countP Call.isPollEvents = 2) :=
  ⟨(C4_exit_code_decided_by_initialisation_only (world true (some 1) none false 0) 1).1
      (Or.inr (Or.inr rfl)),
   (C4_exit_code_decided_by_initialisation_only (world true (some 1) none true 2) 3).2.1
      rfl rfl rfl 2 (closesAt_world true (some 1) none true 2) (by decide)⟩

/-- C5: in `translation.cpp` the mesh literals agree with the calls that
consume them.  `vertices` has 12 floats, 4 vertices of 3 components, and is
uploaded whole; the one `glVertexAttribPointer` call declares 3 floats per
vertex with stride `3 * sizeof(float)` and offset 0.  `indices` has 6 entries,
is uploaded whole, and 6 is the count of the one `glDrawElements` call of each
frame.  Every index is below 4, and the three floats fetched for each index lie
inside `vertices`. -/
theorem C5_mesh_literals_match_their_calls :
    TranslationCpp.vertices.length = 12
    ∧ TranslationCpp.vertices.length = 4 * 3
    ∧ (∀ env : Env, (TranslationCpp.setup env).filter
          (fun c => c.name == "glVertexAttribPointer")
        = [Call.glVertexAttribPointer 0 3 GLenum.GL_FLOAT false (3 * sizeofFloat) 0])
    ∧ (∀ env : Env, (TranslationCpp.setup env).filter (fun c => c.name == "glBufferData")
        = [Call.glBufferData GLenum.GL_ARRAY_BUFFER (12 * sizeofFloat)
             (BufferData.floats TranslationCpp.vertices) GLenum.GL_STATIC_DRAW,
           Call.glBufferData GLenum.GL_ELEMENT_ARRAY_BUFFER (6 * sizeofGLuint)
             (BufferData.uints TranslationCpp.indices) GLenum.GL_STATIC_DRAW])
    ∧ TranslationCpp.indices.length = 6
    ∧ (∀ (env : Env) (w : Window) (k : Nat), (TranslationCpp.frame env w k).filter
          (fun c => c.name == "glDrawElements")
        = [Call.glDrawElements GLenum.GL_TRIANGLES TranslationCpp.indices.length
             GLenum.GL_UNSIGNED_INT 0])
    ∧ TranslationCpp.indices.all (fun i => decide (i < 4)) = true
    ∧ TranslationCpp.indices.all
        (fun i => decide ((0 + i * (3 * sizeofFloat)) / sizeofFloat + 2
          < TranslationCpp.vertices.length)) = true := by
  refine ⟨rfl, rfl, ?_, ?_, rfl, ?_, by decide, by decide⟩
  · intro env
    simp [TranslationCpp.setup, Call.name, List.filter]
  · intro env
    simp [TranslationCpp.setup, Call.name, List.filter, TranslationCpp.vertices,
      TranslationCpp.indices]
  · intro env w k
    simp [TranslationCpp.frame, Call.name, List.filter, TranslationCpp.indices]

namespace TranslationCpp

end TranslationCpp

/-- C7: in `translation.cpp` the mesh is a unit quad.  The four vertices are
the corners `(-1/2, -1/2)`, `(1/2, -1/2)`, `(1/2, 1/2)`, `(-1/2, 1/2)` of the
axis-aligned square of side 1 centred at the origin, all with `z = 0`.  The
indexed triangles are `(0, 1, 2)` and `(0, 2, 3)`; the vertex numbers they have
in common are 0 and 2; both run counter-clockwise (positive signed area) and
have area 1/2, so the areas sum to 1; a point lies in one of them exactly when
it lies in the square, and in both exactly when it lies on the diagonal from
vertex 0 to vertex 2; every vertex number below 4 occurs in `indices`. -/
theorem C7_mesh_is_unit_quad :
    TranslationCpp.vertex 0 = ⟨-(1 / 2), -(1 / 2), 0⟩
    ∧ TranslationCpp.vertex 1 = ⟨1 / 2, -(1 / 2), 0⟩
    ∧ TranslationCpp.vertex 2 = ⟨1 / 2, 1 / 2, 0⟩
    ∧ TranslationCpp.vertex 3 = ⟨-(1 / 2), 1 / 2, 0⟩
    ∧ TranslationCpp.triangle 0 = [0, 1, 2]
    ∧ TranslationCpp.triangle 1 = [0, 2, 3]
    ∧ (TranslationCpp.triangle 0).filter (fun i => (TranslationCpp.triangle 1).contains i)
        = [0, 2]
    ∧ signedArea2 (TranslationCpp.vertex 0) (TranslationCpp.vertex 1) (TranslationCpp.vertex 2) = 1
    ∧ signedArea2 (TranslationCpp.vertex 0) (TranslationCpp.vertex 2) (TranslationCpp.vertex 3) = 1
    ∧ triangleArea (TranslationCpp.vertex 0) (TranslationCpp.vertex 1) (TranslationCpp.vertex 2)
        = 1 / 2
    ∧ triangleArea (TranslationCpp.vertex 0) (TranslationCpp.vertex 2) (TranslationCpp.vertex 3)
        = 1 / 2
    ∧ triangleArea (TranslationCpp.vertex 0) (TranslationCpp.vertex 1) (TranslationCpp.vertex 2)
        + triangleArea (TranslationCpp.vertex 0) (TranslationCpp.vertex 2) (TranslationCpp.vertex 3)
        = 1
    ∧ (∀ px py : ℚ,
        (inTriangle (TranslationCpp.vertex 0) (TranslationCpp.vertex 1) (TranslationCpp.vertex 2)
            px py
          ∨ inTriangle (TranslationCpp.vertex 0) (TranslationCpp.vertex 2)
            (TranslationCpp.vertex 3) px py)
        ↔ inUnitSquare px py)
    ∧ (∀ px py : ℚ,
        (inTriangle (TranslationCpp.vertex 0) (TranslationCpp.vertex 1) (TranslationCpp.vertex 2)
            px py
          ∧ inTriangle (TranslationCpp.vertex 0) (TranslationCpp.vertex 2)
            (TranslationCpp.vertex 3) px py)
        ↔ (py = px ∧ -(1 / 2) ≤ px ∧ px ≤ 1 / 2))
    ∧ (List.range 4).all (fun i => TranslationCpp.indices.contains i) = true := by
  have h0 : TranslationCpp.vertex 0 = ⟨-(1 / 2), -(1 / 2), 0⟩ := by
    simp [TranslationCpp.vertex, fetchVec3, TranslationCpp.vertices, sizeofFloat]
  have h1 : TranslationCpp.vertex 1 = ⟨1 / 2, -(1 / 2), 0⟩ := by
    simp [TranslationCpp.vertex, fetchVec3, TranslationCpp.vertices, sizeofFloat]
  have h2 : TranslationCpp.vertex 2 = ⟨1 / 2, 1 / 2, 0⟩ := by
    simp [TranslationCpp.vertex, fetchVec3, TranslationCpp.vertices, sizeofFloat]
  have h3 : TranslationCpp.vertex 3 = ⟨-(1 / 2), 1 / 2, 0⟩ := by
    simp [TranslationCpp.vertex, fetchVec3, TranslationCpp.vertices, sizeofFloat]
  have ha : signedArea2 (TranslationCpp.vertex 0) (TranslationCpp.vertex 1)
      (TranslationCpp.vertex 2) = 1 := by
    rw [h0, h1, h2]; simp only [signedArea2]; norm_num
  have hb : signedArea2 (TranslationCpp.vertex 0) (TranslationCpp.vertex 2)
      (TranslationCpp.vertex 3) = 1 := by
    rw [h0, h2, h3]; simp only [signedArea2]; norm_num
  refine ⟨h0, h1, h2, h3, by decide, by decide, by decide, ha, hb, ?_, ?_, ?_, ?_, ?_, by decide⟩
  · simp [triangleArea, ha]
  · simp [triangleArea, hb]
  · simp only [triangleArea, ha, hb]; norm_num
  · intro px py
    rw [h0, h1, h2, h3]
    simp only [inTriangle, leftOf, inUnitSquare]
    constructor
    · rintro (⟨a, b, c⟩ | ⟨a, b, c⟩) <;> refine ⟨?_, ?_, ?_, ?_⟩ <;> linarith
    · rintro ⟨a, b, c, d⟩
      rcases le_total py px with h | h
      · left; refine ⟨?_, ?_, ?_⟩ <;> linarith
      · right; refine ⟨?_, ?_, ?_⟩ <;> linarith
  · intro px py
    rw [h0, h1, h2, h3]
    simp only [inTriangle, leftOf]
    constructor
    · rintro ⟨⟨a, b, c⟩, ⟨d, e, f⟩⟩
      refine ⟨?_, ?_, ?_⟩ <;> linarith
    · rintro ⟨rfl, a, b⟩
      refine ⟨⟨?_, ?_, ?_⟩, ⟨?_, ?_, ?_⟩⟩ <;> linarith

/-- C1, evaluated on `main.cpp`: in a world where both windows are created,
`gladLoadGL()` fails and the window is closed after one frame, `main` writes
nothing to `std::cout`, goes on to `glViewport`, renders the frame and returns
0. -/
theorem C1_main_cpp_ignores_gladLoadGL_failure :
    (world true (some 1) (some 2) false 1).gladLoadGL = false
    ∧ ∃ trace, MainCpp.main (world true (some 1) (some 2) false 1) 2 = some ⟨trace, 0⟩
      ∧ trace = MainCpp.start (world true (some 1) (some 2) false 1)
          ++ [Call.glfwMakeContextCurrent 2, Call.gladLoadGL, Call.glViewport 0 0 800 600,
              Call.glfwWindowShouldClose 2,
              Call.glClearColor (7 / 100) (13 / 100) (17 / 100) 1,
              Call.glClear GLenum.GL_COLOR_BUFFER_BIT,
              Call.glfwSwapBuffers 2,
              Call.glfwPollEvents,
              Call.glfwWindowShouldClose 2,
              Call.glfwDestroyWindow 2,
              Call.glfwTerminate]
      ∧ trace.countP Call.isCout = 0
      ∧ trace.countP Call.isSwapBuffers = 1 := by
  refine ⟨rfl, _, MainCpp.main_cpp_loop (world true (some 1) (some 2) false 1) 1 2 2 rfl
      (closesAt_world true (some 1) (some 2) false 1) (by decide), ?_, ?_, ?_⟩ <;>
    simp [iterations, MainCpp.start, MainCpp.context, MainCpp.frame, MainCpp.cleanup,
      Call.isCout, Call.isSwapBuffers]

/-- C9, evaluated on `translation.cpp`: in a run where everything succeeds, the
only window is created with `glfwCreateWindow(800, 800, ...)`, its context is
made current, and the only `glViewport` call is `glViewport(0, 0, 800, 600)`. -/
theorem C9_translation_cpp_viewport_is_not_window_size :
    ∃ trace, TranslationCpp.main (world true (some 1) none true 0) 1 = some ⟨trace, 0⟩
      ∧ trace.filter (fun c => c.name == "glfwCreateWindow")
          = [Call.glfwCreateWindow 800 800 "2D Square with Translation" (some 1)]
      ∧ trace.filter (fun c => c.name == "glfwMakeContextCurrent")
          = [Call.glfwMakeContextCurrent 1]
      ∧ trace.filter (fun c => c.name == "glViewport") = [Call.glViewport 0 0 800 600] := by
  refine ⟨_, TranslationCpp.main_loop (world true (some 1) none true 0) 0 1 1 rfl rfl rfl
    (closesAt_world true (some 1) none true 0) (by decide), ?_, ?_, ?_⟩ <;>
    simp [iterations, TranslationCpp.start, TranslationCpp.setup, TranslationCpp.cleanup,
      Call.name, List.filter, world]

/-- C10, evaluated on `main.cpp`: (1) when `glfwInit()` succeeds, the first
window is created and the second `glfwCreateWindow` returns `NULL`, `main`
returns -1 and `glfwTerminate` was never called; (2) when both windows are
created (as 1 and 2) and the run ends normally, window 1 was returned non-null
by `glfwCreateWindow` and never passed to `glfwDestroyWindow`. -/
theorem C10_main_cpp_misses_terminate_and_first_window :
    (∃ trace, MainCpp.main (world true (some 1) none true 0) 1 = some ⟨trace, -1⟩
      ∧ trace.countP Call.isTerminate = 0)
    ∧ (∃ trace, MainCpp.main (world true (some 1) (some 2) true 0) 1 = some ⟨trace, 0⟩
      ∧ Call.glfwCreateWindow 800 800 "ZMMR" (some 1) ∈ trace
      ∧ trace.countP (Call.isDestroyOf 1) = 0
      ∧ trace.countP (Call.isDestroyOf 2) = 1
      ∧ trace.countP Call.isTerminate = 1) := by
  constructor
  · refine ⟨_, MainCpp.main_cpp_window_null (world true (some 1) none true 0) 1 rfl, ?_⟩
    simp [MainCpp.start, Call.isTerminate]
  · refine ⟨_, MainCpp.main_cpp_loop (world true (some 1) (some 2) true 0) 0 1 2 rfl
      (closesAt_world true (some 1) (some 2) true 0) (by decide), ?_, ?_, ?_, ?_⟩ <;>
      simp [iterations, MainCpp.start, MainCpp.context, MainCpp.cleanup, Call.isDestroyOf,
        Call.isTerminate, world]

end OpenGL
